import Mathlib

/-!
Verification of the `tui-split` repository: a two-pane terminal UI driven by
polled shell commands (`src/main.rs`) plus a PTY-session wrapper
(`src/lib.rs`).  The definitions below are a shallow embedding of the Rust
source: `Instant` timestamps become integer nanoseconds, the OS command
execution and PTY system become explicit oracles passed in as an environment,
and `u16` casts are modelled with explicit `% 65536`.
-/

namespace TuiSplit


/-! ## Rust `str::lines` semantics

`Pane::scroll_down` and the renderer call `self.output.lines()`.  Rust splits
at `\n`, treats a preceding `\r` as part of the line ending, and does not
produce a final empty line for a trailing terminator.  We model this on the
character list of the string with structural recursion. -/

/-- Split a character list at every newline character; always returns at least
one (possibly empty) segment, mirroring the segments between `\n`s. -/
def splitNl : List Char → List (List Char)
  | [] => [[]]
  | '\n' :: cs => [] :: splitNl cs
  | c :: cs =>
    match splitNl cs with
    | [] => [[c]]
    | p :: ps => (c :: p) :: ps

/-- Drop one trailing carriage return, as Rust does for `\r\n` line endings. -/
def stripCR (l : List Char) : List Char :=
  if l.getLast? = some '\r' then l.dropLast else l

/-- Rust `str::lines`: segments between `\n`s, with `\r` stripped from the end
of every segment that was terminated by `\n`, and no final empty line when the
string ends with a line terminator. -/
def rustLines (s : String) : List String :=
  let parts := splitNl s.data
  let body := (parts.take (parts.length - 1)).map stripCR
  let last := parts.getLastD []
  let kept := if last = [] then body else body ++ [last]
  kept.map fun l => String.mk l

/-! ## The command-execution environment

`Pane::update` runs `Command::new("sh").arg("-c").arg(&self.command).output()`.
We model the OS as an oracle: the current instant plus a map from command
strings to the outcome of running them, with captured streams already decoded
by `String::from_utf8_lossy` (lossy decoding never fails, and a byte vector is
empty iff its lossy decoding is the empty string). -/

/-- Outcome of `Command::output()`: success with captured stdout/stderr, or an
`io::Error` (cannot spawn `sh`) carrying its display text. -/
inductive CmdOutput
  | ok (stdout stderr : String)
  | err (msg : String)
deriving DecidableEq

/-- Execution environment for one call into the app: the current `Instant`
and the OS result of running each shell command string. -/
structure Env where
  now : Int
  run : String → CmdOutput

/-! ## `Pane` (src/main.rs lines 22-80) -/

/-- The `Pane` struct: title, shell command, collected output, timestamp of the
last refresh, and the `u16` scroll offset. -/
structure Pane where
  title : String
  command : String
  output : String
  last_update : Int
  scroll_offset : Nat
deriving DecidableEq

/-- `Pane::new`: empty output, scroll offset 0, and `last_update` backdated by
60 seconds (`Instant::now() - Duration::from_secs(60)`) to force the first
update. -/
def Pane.new (title command : String) (now : Int) : Pane :=
  { title := title
    command := command
    output := ""
    last_update := now - 60000000000
    scroll_offset := 0 }

/-- `Duration::from_secs(2)` in nanoseconds: the refresh interval compared
against `self.last_update.elapsed()`. -/
def refreshNanos : Int := 2000000000

/-- `Pane::update`, returning the new pane together with whether the command
was executed this call.  Matches the source: the body runs only when the
elapsed time strictly exceeds 2 seconds; on `Ok`, lossy stdout replaces the
output and non-empty stderr is appended after a literal `--- STDERR ---`
separator line; on `Err(e)`, the output becomes the error message; in either
executed case `last_update` is set to now. -/
def Pane.updateResult (p : Pane) (env : Env) : Pane × Bool :=
  if refreshNanos < env.now - p.last_update then
    let p2 :=
      match env.run p.command with
      | CmdOutput.ok stdout stderr =>
        { p with output :=
            if stderr = "" then stdout
            else stdout ++ "\n--- STDERR ---\n" ++ stderr }
      | CmdOutput.err e =>
        { p with output := "Error executing command: " ++ e }
    ({ p2 with last_update := env.now }, true)
  else
    (p, false)

/-- `Pane::update` as the state transformer alone. -/
def Pane.update (p : Pane) (env : Env) : Pane :=
  (p.updateResult env).1

/-- `self.output.lines().count() as u16`: the line count of the output with
the `u16` cast made explicit. -/
def Pane.lineCount (p : Pane) : Nat :=
  (rustLines p.output).length % 65536

/-- `Pane::scroll_up`: decrement the offset when it is positive. -/
def Pane.scroll_up (p : Pane) : Pane :=
  if p.scroll_offset > 0 then { p with scroll_offset := p.scroll_offset - 1 }
  else p

/-- `Pane::scroll_down`: increment the offset when it is below
`line_count.saturating_sub(1)` (Nat subtraction is saturating). -/
def Pane.scroll_down (p : Pane) : Pane :=
  if p.scroll_offset < p.lineCount - 1 then
    { p with scroll_offset := p.scroll_offset + 1 }
  else p

/-- `Pane::reset_scroll`. -/
def Pane.reset_scroll (p : Pane) : Pane :=
  { p with scroll_offset := 0 }

/-- One arrow-key scroll action on a pane. -/
inductive ScrollOp
  | up
  | down
deriving DecidableEq

/-- Apply one scroll action. -/
def Pane.applyScroll (p : Pane) : ScrollOp → Pane
  | ScrollOp.up => p.scroll_up
  | ScrollOp.down => p.scroll_down

/-- Apply a finite sequence of scroll actions in order. -/
def Pane.applyScrolls (p : Pane) (ops : List ScrollOp) : Pane :=
  ops.foldl Pane.applyScroll p

/-! ## `App` and the event loop (src/main.rs lines 82-175) -/

/-- The `App` struct: the panes, the split orientation flag, and the focused
pane index. -/
structure App where
  panes : List Pane
  split_horizontal : Bool
  focused_pane : Nat
deriving DecidableEq

/-- `App::new`: the two startup panes, vertical split, focus on pane 0.  The
construction instant is a parameter standing for `Instant::now()` inside
`Pane::new`. -/
def App.new (now : Int) : App :=
  { panes :=
      [Pane.new "System Info" "date && echo && uname -a && echo && uptime" now,
       Pane.new "Process List" "ps aux | head -20" now]
    split_horizontal := false
    focused_pane := 0 }

/-- `App::update`: update every pane. -/
def App.update (a : App) (env : Env) : App :=
  { a with panes := a.panes.map fun p => p.update env }

/-- `App::switch_focus`: `(focused_pane + 1) % panes.len()`. -/
def App.switch_focus (a : App) : App :=
  { a with focused_pane := (a.focused_pane + 1) % a.panes.length }

/-- Replace the element at an index, leaving the list unchanged when the index
is out of range (in the source the index is always in range). -/
def listModify {α : Type} : List α → Nat → (α → α) → List α
  | [], _, _ => []
  | x :: xs, 0, f => f x :: xs
  | x :: xs, Nat.succ n, f => x :: listModify xs n f

/-- The key events `run_app` can receive from crossterm, as far as its `match`
distinguishes them: a character key, Tab, the arrow keys, Enter, or anything
else (all of which fall into the `_ => {}` arm). -/
inductive KeyCode
  | char (c : Char)
  | tab
  | up
  | down
  | enter
  | other
deriving DecidableEq

/-- Result of dispatching one key event in `run_app`: the new app state,
whether the loop returns (the `q` arm), and the bytes forwarded to a pane's
live PTY session.  No arm of the source `match` performs any session write —
`main.rs` does not use the library's `Terminal` at all — so every arm below
records an empty write list, taken directly from the source. -/
structure Dispatched where
  app : App
  quit : Bool
  writes : List (Nat × List Nat)
deriving DecidableEq

/-- The key `match` in `run_app`: `q` quits, `h`/`v` set the orientation,
Tab switches focus, Up/Down scroll the focused pane, digits 1-4 replace a
pane with a fresh `Pane::new`, and every other key — printable characters
included, and Enter — hits `_ => {}`. -/
def dispatchKey (a : App) (env : Env) (k : KeyCode) : Dispatched :=
  match k with
  | KeyCode.char c =>
    if c = 'q' then ⟨a, true, []⟩
    else if c = 'h' then ⟨{ a with split_horizontal := true }, false, []⟩
    else if c = 'v' then ⟨{ a with split_horizontal := false }, false, []⟩
    else if c = '1' then
      ⟨{ a with panes := a.panes.set 0 (Pane.new "Disk Usage" "df -h" env.now) }, false, []⟩
    else if c = '2' then
      ⟨{ a with panes := a.panes.set 1 (Pane.new "Network Info" "ifconfig" env.now) }, false, []⟩
    else if c = '3' then
      ⟨{ a with panes := a.panes.set 0 (Pane.new "Memory Info" "free -h" env.now) }, false, []⟩
    else if c = '4' then
      ⟨{ a with panes := a.panes.set 1 (Pane.new "CPU Info" "lscpu" env.now) }, false, []⟩
    else ⟨a, false, []⟩
  | KeyCode.tab => ⟨a.switch_focus, false, []⟩
  | KeyCode.up =>
    ⟨{ a with panes := listModify a.panes a.focused_pane Pane.scroll_up }, false, []⟩
  | KeyCode.down =>
    ⟨{ a with panes := listModify a.panes a.focused_pane Pane.scroll_down }, false, []⟩
  | KeyCode.enter => ⟨a, false, []⟩
  | KeyCode.other => ⟨a, false, []⟩

/-- One observable step of the `run_app` loop: either the per-tick
`app.update()` call, or the dispatch of one polled key event. -/
inductive Msg
  | tick (env : Env)
  | key (env : Env) (k : KeyCode)

/-- Apply one loop step to the app state. -/
def App.step (a : App) : Msg → App
  | Msg.tick env => a.update env
  | Msg.key env k => (dispatchKey a env k).app

/-- The app state reached from `a` after a sequence of loop steps. -/
def App.reach (a : App) (ms : List Msg) : App :=
  ms.foldl App.step a

/-! ## The PTY session wrapper (src/lib.rs) -/

/-- `portable_pty::PtySize` as built by `Terminal`: pixel fields always 0. -/
structure PtySize where
  rows : Nat
  cols : Nat
  pixel_width : Nat
  pixel_height : Nat
deriving DecidableEq

/-- A PTY pair returned by `openpty`: opaque handles for the master and slave
sides. -/
structure PtyPair where
  master : Nat
  slave : Nat
deriving DecidableEq

/-- Oracle for the external `portable_pty` system: `openpty` on a size, and
`spawn_command` of a program on a slave handle, each possibly failing. -/
structure PtyEnv where
  openpty : PtySize → Except String PtyPair
  spawn_command : Nat → String → Except String Nat

/-- The `Terminal` struct from src/lib.rs: the master handle and the child
process handle. -/
structure Terminal where
  master : Nat
  child : Nat
deriving DecidableEq

/-- `Terminal::new_with_size(rows, cols)`: open a PTY with the given rows and
columns (pixel sizes 0), spawn `zsh` on the slave side, and keep the master
and the child. -/
def Terminal.new_with_size (env : PtyEnv) (rows cols : Nat) :
    Except String Terminal := do
  let pair ← env.openpty ⟨rows, cols, 0, 0⟩
  let child ← env.spawn_command pair.slave "zsh"
  pure ⟨pair.master, child⟩

/-- `Terminal::new()`: delegate to `new_with_size(24, 80)`. -/
def Terminal.new (env : PtyEnv) : Except String Terminal :=
  Terminal.new_with_size env 24 80

/-- Operations the `Drop` implementation could perform on the child process
handle. -/
inductive ChildAction
  | kill
  | wait
deriving DecidableEq

/-- The body of `impl Drop for Terminal`: the trace of child-process actions
it performs.  The source body is the single statement
`let _ = self.child.kill();`, so the trace is one kill, whatever result the
kill call returns. -/
def Terminal.drop (_killResult : Except String Unit) : List ChildAction :=
  [ChildAction.kill]

/-! ## Scroll-clamping lemmas (claim C3) -/

theorem scroll_up_output (p : Pane) : p.scroll_up.output = p.output := by
  unfold Pane.scroll_up
  split <;> rfl

theorem scroll_down_output (p : Pane) : p.scroll_down.output = p.output := by
  unfold Pane.scroll_down
  split <;> rfl

theorem lineCount_congr (p q : Pane) (h : p.output = q.output) :
    p.lineCount = q.lineCount := by
  unfold Pane.lineCount
  rw [h]

theorem scroll_up_bound (p : Pane) (h : p.scroll_offset ≤ p.lineCount - 1) :
    p.scroll_up.scroll_offset ≤ p.scroll_up.lineCount - 1 := by
  rw [lineCount_congr p.scroll_up p (scroll_up_output p)]
  unfold Pane.scroll_up
  split
  · show p.scroll_offset - 1 ≤ p.lineCount - 1
    omega
  · exact h

theorem scroll_down_bound (p : Pane) (h : p.scroll_offset ≤ p.lineCount - 1) :
    p.scroll_down.scroll_offset ≤ p.scroll_down.lineCount - 1 := by
  rw [lineCount_congr p.scroll_down p (scroll_down_output p)]
  unfold Pane.scroll_down
  split
  · next hlt =>
    show p.scroll_offset + 1 ≤ p.lineCount - 1
    omega
  · exact h

theorem applyScrolls_bound (ops : List ScrollOp) :
    ∀ p : Pane, p.scroll_offset ≤ p.lineCount - 1 →
      (p.applyScrolls ops).scroll_offset ≤ (p.applyScrolls ops).lineCount - 1 := by
  induction ops with
  | nil => intro p h; exact h
  | cons op ops ih =>
    intro p h
    have h1 : (p.applyScroll op).scroll_offset ≤ (p.applyScroll op).lineCount - 1 := by
      cases op
      · exact scroll_up_bound p h
      · exact scroll_down_bound p h
    exact ih _ h1

theorem applyScrolls_output (ops : List ScrollOp) :
    ∀ p : Pane, (p.applyScrolls ops).output = p.output := by
  induction ops with
  | nil => intro p; rfl
  | cons op ops ih =>
    intro p
    have h1 : ((p.applyScroll op).applyScrolls ops).output = (p.applyScroll op).output :=
      ih _
    have h2 : (p.applyScroll op).output = p.output := by
      cases op
      · exact scroll_up_output p
      · exact scroll_down_output p
    exact h1.trans h2

/-- C3: starting from scroll offset 0, any finite sequence of
`scroll_up`/`scroll_down` calls on a pane with fixed output keeps the scroll
offset within `[0, max 0 (lineCount - 1)]`, where `lineCount` is the pane's
output line count (the lower bound 0 is inherent to the Nat offset). -/
theorem scroll_offset_always_clamped (p : Pane) (ops : List ScrollOp)
    (h0 : p.scroll_offset = 0) :
    (p.applyScrolls ops).scroll_offset ≤ max 0 ((rustLines p.output).length - 1) := by
  have h1 : (p.applyScrolls ops).scroll_offset ≤ (p.applyScrolls ops).lineCount - 1 :=
    applyScrolls_bound ops p (by rw [h0]; exact Nat.zero_le _)
  have h2 : (p.applyScrolls ops).lineCount = p.lineCount :=
    lineCount_congr _ _ (applyScrolls_output ops p)
  rw [h2] at h1
  unfold Pane.lineCount at h1
  rw [max_eq_right (Nat.zero_le _)]
  omega

/-- C3 witness: a concrete pane with offset 0 stays clamped after a
down-then-up scroll sequence. -/
theorem scroll_offset_always_clamped_witness :
    ((Pane.new "t" "c" 0).applyScrolls [ScrollOp.down, ScrollOp.up]).scroll_offset ≤
      max 0 ((rustLines (Pane.new "t" "c" 0).output).length - 1) :=
  scroll_offset_always_clamped (Pane.new "t" "c" 0) [ScrollOp.down, ScrollOp.up] rfl

/-! ## Refresh-interval lemmas (claims C5, C6, C10) -/

theorem updateResult_skipped (p : Pane) (env : Env)
    (h : ¬ refreshNanos < env.now - p.last_update) :
    p.updateResult env = (p, false) := by
  unfold Pane.updateResult
  rw [if_neg h]

theorem updateResult_executed (p : Pane) (env : Env)
    (h : refreshNanos < env.now - p.last_update) :
    (p.updateResult env).1.last_update = env.now ∧ (p.updateResult env).2 = true := by
  unfold Pane.updateResult
  rw [if_pos h]
  exact ⟨rfl, rfl⟩

/-- C5: `Pane::update` is a no-op — same pane state, no command execution —
unless the elapsed time since `last_update` strictly exceeds 2 seconds; and
after a command-executing call at instant `e1.now`, a second call within 2
seconds of it executes nothing and changes nothing. -/
theorem update_noop_within_refresh_window (p : Pane) (e1 e2 : Env) :
    (e1.now - p.last_update ≤ refreshNanos → p.updateResult e1 = (p, false)) ∧
    ((p.updateResult e1).2 = true → e2.now - e1.now ≤ refreshNanos →
      (p.updateResult e1).1.updateResult e2 = ((p.updateResult e1).1, false)) := by
  constructor
  · intro h
    exact updateResult_skipped p e1 (by omega)
  · intro hexec hwithin
    have hcond : refreshNanos < e1.now - p.last_update := by
      by_contra hc
      rw [updateResult_skipped p e1 hc] at hexec
      simp at hexec
    obtain ⟨hlast, -⟩ := updateResult_executed p e1 hcond
    exact updateResult_skipped _ e2 (by rw [hlast]; omega)

def paneT : Pane :=
  { title := "t", command := "c", output := "", last_update := 0, scroll_offset := 0 }

def envQuick : Env := ⟨1000000000, fun _ => CmdOutput.ok "x" ""⟩

def envDue : Env := ⟨10000000000, fun _ => CmdOutput.ok "x" ""⟩

def envSoonAfter : Env := ⟨11000000000, fun _ => CmdOutput.ok "y" ""⟩

/-- C5 witness: at 1 s elapsed the update is a no-op, and 1 s after an
executing update the next update is a no-op. -/
theorem update_noop_within_refresh_window_witness :
    paneT.updateResult envQuick = (paneT, false) ∧
    (paneT.updateResult envDue).1.updateResult envSoonAfter =
      ((paneT.updateResult envDue).1, false) :=
  ⟨(update_noop_within_refresh_window paneT envQuick envSoonAfter).1 (by decide),
   (update_noop_within_refresh_window paneT envDue envSoonAfter).2 (by decide) (by decide)⟩

/-- C6: on a due update, captured stdout replaces the pane's output; non-empty
stderr is appended after the literal separator line `--- STDERR ---`; and a
spawn failure replaces the output with the error message containing the
failure description — `update` is total, so no error propagates. -/
theorem update_output_policy (p : Pane) (env : Env)
    (hdue : refreshNanos < env.now - p.last_update) :
    (∀ out err, env.run p.command = CmdOutput.ok out err →
      (p.update env).output =
        if err = "" then out else out ++ "\n--- STDERR ---\n" ++ err) ∧
    (∀ e, env.run p.command = CmdOutput.err e →
      (p.update env).output = "Error executing command: " ++ e) := by
  constructor
  · intro out err hrun
    simp [Pane.update, Pane.updateResult, hdue, hrun]
  · intro e hrun
    simp [Pane.update, Pane.updateResult, hdue, hrun]

def envStderr : Env := ⟨10000000000, fun _ => CmdOutput.ok "hello" "boom"⟩

/-- C6 witness: a due update with non-empty stderr yields stdout followed by
the separator and stderr. -/
theorem update_output_policy_witness :
    (paneT.update envStderr).output =
      if ("boom" : String) = "" then "hello"
      else "hello" ++ "\n--- STDERR ---\n" ++ "boom" :=
  (update_output_policy paneT envStderr (by decide)).1 "hello" "boom" rfl

/-- C10: every pane built by `Pane::new` — which is how both the startup panes
and the digit-key replacement panes are built — has `last_update` backdated
60 seconds and scroll offset 0, so its first `update` at any instant at or
after construction executes the command immediately. -/
theorem pane_new_forces_first_update (title command : String) (now : Int) (env : Env) :
    (Pane.new title command now).last_update = now - 60000000000 ∧
    (Pane.new title command now).scroll_offset = 0 ∧
    (now ≤ env.now → ((Pane.new title command now).updateResult env).2 = true) ∧
    (∀ q ∈ (App.new now).panes, q.last_update = now - 60000000000 ∧ q.scroll_offset = 0) := by
  refine ⟨rfl, rfl, ?_, ?_⟩
  · intro h
    have hcond : refreshNanos < env.now - (Pane.new title command now).last_update := by
      show refreshNanos < env.now - (now - 60000000000)
      unfold refreshNanos
      omega
    simp [Pane.updateResult, hcond]
  · intro q hq
    simp only [App.new, List.mem_cons, List.mem_singleton] at hq
    rcases hq with h | h | h
    · subst h; exact ⟨rfl, rfl⟩
    · subst h; exact ⟨rfl, rfl⟩
    · cases h

def envStart : Env := ⟨500, fun _ => CmdOutput.ok "x" ""⟩

/-- C10 witness: a pane constructed at instant 0 executes on its first update
at instant 500 ns, and the first startup pane is backdated with offset 0. -/
theorem pane_new_forces_first_update_witness :
    ((Pane.new "t" "c" 0).updateResult envStart).2 = true ∧
    (Pane.new "System Info" "date && echo && uname -a && echo && uptime" 0).last_update =
        0 - 60000000000 := by
  constructor
  · exact (pane_new_forces_first_update "t" "c" 0 envStart).2.2.1 (by decide)
  · exact ((pane_new_forces_first_update "t" "c" 0 envStart).2.2.2
      (Pane.new "System Info" "date && echo && uname -a && echo && uptime" 0)
      (by simp [App.new])).1

/-! ## Multiplexer-state invariant (claim C7) -/

/-- The multiplexer invariant: a non-empty pane list and an in-range focused
index. -/
def AppInv (a : App) : Prop :=
  0 < a.panes.length ∧ a.focused_pane < a.panes.length

theorem listModify_length {α : Type} (l : List α) (i : Nat) (f : α → α) :
    (listModify l i f).length = l.length := by
  induction l generalizing i with
  | nil => rfl
  | cons x xs ih =>
    cases i with
    | zero => rfl
    | succ n => simp [listModify, ih]

theorem step_preserves_inv (a : App) (m : Msg) (h : AppInv a) : AppInv (a.step m) := by
  obtain ⟨h1, h2⟩ := h
  cases m with
  | tick env =>
    exact ⟨by simpa [App.step, App.update] using h1,
           by simpa [App.step, App.update] using h2⟩
  | key env k =>
    cases k with
    | char c =>
      show AppInv (dispatchKey a env (KeyCode.char c)).app
      simp only [dispatchKey]
      split_ifs <;> simp [AppInv, List.length_set, h1, h2]
    | tab =>
      exact ⟨h1, Nat.mod_lt _ h1⟩
    | up =>
      have hl : (listModify a.panes a.focused_pane Pane.scroll_up).length =
          a.panes.length := listModify_length _ _ _
      refine ⟨?_, ?_⟩
      · show 0 < (listModify a.panes a.focused_pane Pane.scroll_up).length
        rw [hl]; exact h1
      · show a.focused_pane < (listModify a.panes a.focused_pane Pane.scroll_up).length
        rw [hl]; exact h2
    | down =>
      have hl : (listModify a.panes a.focused_pane Pane.scroll_down).length =
          a.panes.length := listModify_length _ _ _
      refine ⟨?_, ?_⟩
      · show 0 < (listModify a.panes a.focused_pane Pane.scroll_down).length
        rw [hl]; exact h1
      · show a.focused_pane < (listModify a.panes a.focused_pane Pane.scroll_down).length
        rw [hl]; exact h2
    | enter => exact ⟨h1, h2⟩
    | other => exact ⟨h1, h2⟩

theorem reach_inv (ms : List Msg) :
    ∀ a : App, AppInv a → AppInv (a.reach ms) := by
  induction ms with
  | nil => intro a h; exact h
  | cons m ms ih => intro a h; exact ih _ (step_preserves_inv a m h)

/-- C7: in every state reachable from the startup state by any sequence of
loop steps — periodic updates and dispatched key events (focus switch,
orientation change, scrolling, digit-key pane replacement) — the focused-pane
index is a valid index into the pane list. -/
theorem focused_pane_always_valid (t0 : Int) (ms : List Msg) :
    ((App.new t0).reach ms).focused_pane < ((App.new t0).reach ms).panes.length :=
  (reach_inv ms (App.new t0) ⟨by simp [App.new], by simp [App.new]⟩).2

/-! ## Cyclic focus switching (claim C8) -/

theorem switch_focus_panes (a : App) : a.switch_focus.panes = a.panes := rfl

theorem switch_focus_iterate_panes (k : Nat) (a : App) :
    (App.switch_focus^[k] a).panes = a.panes := by
  induction k with
  | zero => rfl
  | succ n ih => rw [Function.iterate_succ_apply', switch_focus_panes, ih]

theorem switch_focus_iterate_focus (k : Nat) (a : App) :
    (App.switch_focus^[k + 1] a).focused_pane =
      (a.focused_pane + (k + 1)) % a.panes.length := by
  induction k with
  | zero => rfl
  | succ n ih =>
    rw [Function.iterate_succ_apply']
    show ((App.switch_focus^[n + 1] a).focused_pane + 1) %
        (App.switch_focus^[n + 1] a).panes.length = _
    rw [switch_focus_iterate_panes, ih, Nat.mod_add_mod, Nat.add_assoc]

/-- C8: `switch_focus` sets the focus to `(focused + 1) % paneCount`, and
applying it `paneCount` times returns the focus to its original value. -/
theorem switch_focus_cyclic (a : App) (hP : 0 < a.panes.length)
    (hf : a.focused_pane < a.panes.length) :
    a.switch_focus.focused_pane = (a.focused_pane + 1) % a.panes.length ∧
    (App.switch_focus^[a.panes.length] a).focused_pane = a.focused_pane := by
  refine ⟨rfl, ?_⟩
  obtain ⟨n, hn⟩ : ∃ n, a.panes.length = n + 1 := ⟨a.panes.length - 1, by omega⟩
  have hiter := switch_focus_iterate_focus n a
  rw [hn]
  rw [hiter, hn, Nat.add_mod_right]
  exact Nat.mod_eq_of_lt (hn ▸ hf)

/-- C8 witness: on the two-pane startup app, focus goes `0 → 1 → 0` after two
switches. -/
theorem switch_focus_cyclic_witness :
    (App.new 0).switch_focus.focused_pane =
        ((App.new 0).focused_pane + 1) % (App.new 0).panes.length ∧
    (App.switch_focus^[(App.new 0).panes.length] (App.new 0)).focused_pane =
        (App.new 0).focused_pane :=
  switch_focus_cyclic (App.new 0) (by decide) (by decide)

/-! ## PTY-session claims (C4, C9) -/

/-- C4: the `Drop` implementation issues exactly one kill to the child,
ignores the kill's result (the trace is the same whatever the result), and
never waits on the child's exit status. -/
theorem drop_kills_once_no_wait (r : Except String Unit) :
    (Terminal.drop r).count ChildAction.kill = 1 ∧
    (Terminal.drop r).count ChildAction.wait = 0 ∧
    Terminal.drop r = Terminal.drop (Except.ok ()) :=
  ⟨rfl, rfl, rfl⟩

/-- C9: the default constructor delegates to the explicit-geometry one with
rows = 24, cols = 80, for every behaviour of the underlying PTY system. -/
theorem new_uses_default_geometry (env : PtyEnv) :
    Terminal.new env = Terminal.new_with_size env 24 80 := rfl

/-! ## No output-buffer line cap (claim C1) -/

/-- A 150-line command output. -/
def bigOut : String := String.join (List.replicate 150 "line\n")

def envBig : Env := ⟨10000000000, fun _ => CmdOutput.ok bigOut ""⟩

set_option maxRecDepth 40000 in
/-- C1 counterexample: after a single due update whose command printed 150
lines, the pane's output buffer holds 150 lines — more than the claimed cap
of 100.  No eviction happens anywhere in the code. -/
theorem no_line_cap_counterexample :
    100 < (rustLines ((Pane.new "t" "c" 0).update envBig).output).length := by
  decide

/-- C1 amended: the pane output buffer has no retained-line cap and no FIFO
eviction; a due update replaces the buffer wholesale, so the buffer is
exactly the command's captured stdout (empty stderr case), whatever its line
count. -/
theorem update_replaces_buffer_uncapped (p : Pane) (env : Env) (out : String)
    (hdue : refreshNanos < env.now - p.last_update)
    (hrun : env.run p.command = CmdOutput.ok out "") :
    (p.update env).output = out := by
  simp [Pane.update, Pane.updateResult, hdue, hrun]

/-- C1 amended witness: the 150-line output replaces the buffer verbatim. -/
theorem update_replaces_buffer_uncapped_witness :
    ((Pane.new "t" "c" 0).update envBig).output = bigOut :=
  update_replaces_buffer_uncapped (Pane.new "t" "c" 0) envBig bigOut (by decide) rfl

/-! ## Keystroke forwarding does not exist (claim C2) -/

def envIdle : Env := ⟨0, fun _ => CmdOutput.ok "" ""⟩

/-- C2 counterexample: pressing the printable character `x` (or Enter) on the
startup app leaves the app state unchanged and forwards no bytes to any
session — the keystroke lands in the `_ => {}` arm and is silently
discarded.  `main.rs` holds no live PTY session at all. -/
theorem char_key_discarded_counterexample :
    dispatchKey (App.new 0) envIdle (KeyCode.char 'x') = ⟨App.new 0, false, []⟩ ∧
    dispatchKey (App.new 0) envIdle KeyCode.enter = ⟨App.new 0, false, []⟩ := by
  constructor <;> rfl

/-- C2 amended: every character key other than the seven command keys
`q h v 1 2 3 4`, and the Enter key, is silently discarded by the dispatcher:
the app state is unchanged, the loop continues, and no bytes are forwarded
(no pane has a live session). -/
theorem dispatch_ignores_plain_keys (a : App) (env : Env) (c : Char)
    (h1 : c ≠ 'q') (h2 : c ≠ 'h') (h3 : c ≠ 'v') (h4 : c ≠ '1')
    (h5 : c ≠ '2') (h6 : c ≠ '3') (h7 : c ≠ '4') :
    dispatchKey a env (KeyCode.char c) = ⟨a, false, []⟩ ∧
    dispatchKey a env KeyCode.enter = ⟨a, false, []⟩ := by
  constructor
  · simp [dispatchKey, h1, h2, h3, h4, h5, h6, h7]
  · rfl

/-- C2 amended witness: the key `z` on a concrete app is discarded. -/
theorem dispatch_ignores_plain_keys_witness :
    dispatchKey (App.new 1) envIdle (KeyCode.char 'z') = ⟨App.new 1, false, []⟩ ∧
    dispatchKey (App.new 1) envIdle KeyCode.enter = ⟨App.new 1, false, []⟩ :=
  dispatch_ignores_plain_keys (App.new 1) envIdle 'z' (by decide) (by decide)
    (by decide) (by decide) (by decide) (by decide) (by decide)

end TuiSplit
